import Mathlib

/-!
Verification of the ApplicationSnapshot lifecycle/status helpers from
`appstudio-shared/apis/appstudio.redhat.com/v1alpha1/applicationsnapshot_types.go`.

The Go code mutates an `ApplicationSnapshot` in place; we embed it as pure
functions from snapshot (and the ambient wall-clock time, passed explicitly
as a `now` argument for every `time.Now()` read in the source) to snapshot.

`metav1.Time` is embedded as `Nat`, with `0` playing the role of Go's zero
`time.Time` (so `IsZero` becomes `= 0`); the wall clock `time.Now()` never
returns the zero time, which appears as a `now ≠ 0` hypothesis where the
code's behaviour depends on it.
-/

namespace AppSnapshot

/-- Embeds Go `metav1.Time`; `0` is the zero time. -/
abbrev Time := Nat

/-- Embeds Go `metav1.ConditionStatus` with its three values
`"True"`, `"False"`, `"Unknown"`. -/
inductive ConditionStatus where
  | conditionTrue
  | conditionFalse
  | conditionUnknown
deriving DecidableEq, Repr

/-- Embeds Go `metav1.Condition` (the fields the source reads or writes;
`ObservedGeneration` is never touched and is omitted). The Go field `Type`
is named `Type_` because `Type` is reserved in Lean. -/
structure Condition where
  Type_ : String
  Status : ConditionStatus
  Reason : String
  Message : String
  LastTransitionTime : Time
deriving DecidableEq, Repr

/-- Embeds Go `ApplicationSnapshotReason` (a string type). -/
abbrev ApplicationSnapshotReason := String

/-- Embeds the Go constant `applicationSnapshotConditionType = "Succeeded"`. -/
def applicationSnapshotConditionType : String := "Succeeded"

/-- Embeds Go `ApplicationSnapshotReasonValidationError = "Error"`. -/
def ApplicationSnapshotReasonValidationError : ApplicationSnapshotReason := "Error"

/-- Embeds Go `ApplicationSnapshotReasonTestsFailed = "TestsFailed"`. -/
def ApplicationSnapshotReasonTestsFailed : ApplicationSnapshotReason := "TestsFailed"

/-- Embeds Go `ApplicationSnapshotReasonTestsRunning = "TestsRunning"`. -/
def ApplicationSnapshotReasonTestsRunning : ApplicationSnapshotReason := "TestsRunning"

/-- Embeds Go `ApplicationSnapshotReasonSucceeded = "Succeeded"`. -/
def ApplicationSnapshotReasonSucceeded : ApplicationSnapshotReason := "Succeeded"

/-- Embeds Go `(asr ApplicationSnapshotReason) String()`: the identity on
the underlying string. -/
def reasonString (asr : ApplicationSnapshotReason) : String := asr

/-- Embeds Go `ApplicationSnapshotComponent`. -/
structure ApplicationSnapshotComponent where
  Name : String
  ContainerImage : String
deriving DecidableEq, Repr

/-- Embeds Go `ApplicationSnapshotSpec` (the `Artifacts` extension bag is an
opaque payload never read by the lifecycle logic and is embedded as an
uninterpreted string). -/
structure ApplicationSnapshotSpec where
  Application : String
  DisplayName : String
  DisplayDescription : String
  Type_ : String
  Components : List ApplicationSnapshotComponent
  Artifacts : String
deriving DecidableEq, Repr

/-- Embeds Go `ApplicationSnapshotStatus` (nil pointers become `none`). -/
structure ApplicationSnapshotStatus where
  StartTime : Option Time
  CompletionTime : Option Time
  Conditions : List Condition
  ReleasePipelineRun : String
deriving DecidableEq, Repr

/-- Embeds Go `ApplicationSnapshot` (object/type metadata is owned by the
framework and never read by the lifecycle logic, so it is omitted). -/
structure ApplicationSnapshot where
  Spec : ApplicationSnapshotSpec
  Status : ApplicationSnapshotStatus
deriving DecidableEq, Repr

/-- Modelled from the spec: `meta.FindStatusCondition` from
k8s.io/apimachinery (a dependency whose source is not in this repository)
returns the first condition in the ordered collection whose type matches,
or nil. -/
def FindStatusCondition (conditions : List Condition) (conditionType : String) :
    Option Condition :=
  conditions.find? (fun c => c.Type_ == conditionType)

/-- Modelled from the spec: `meta.IsStatusConditionTrue` from
k8s.io/apimachinery reports whether the condition of the given type is
present with status True. -/
def IsStatusConditionTrue (conditions : List Condition) (conditionType : String) :
    Bool :=
  match FindStatusCondition conditions conditionType with
  | some c => c.Status == ConditionStatus.conditionTrue
  | none => false

/-- Modelled from the spec: the in-place update `meta.SetStatusCondition`
performs on an existing record of the same type — `status`, `reason` and
`message` are overwritten, and `lastTransitionTime` is refreshed (to the
ambient time, since the source always passes a condition with zero
`LastTransitionTime`) only when `status` actually changed. -/
def updateExistingCondition (c newCondition : Condition) (now : Time) : Condition :=
  if c.Status ≠ newCondition.Status then
    { c with
      Status := newCondition.Status
      Reason := newCondition.Reason
      Message := newCondition.Message
      LastTransitionTime := now }
  else
    { c with Reason := newCondition.Reason, Message := newCondition.Message }

/-- Replaces the first condition whose type matches `t` by `upd` applied to
it, leaving every other record untouched (the list-functional rendering of
updating through the pointer `meta.FindStatusCondition` returned). -/
def replaceFirstCondition (t : String) (upd : Condition → Condition) :
    List Condition → List Condition
  | [] => []
  | c :: rest =>
    if c.Type_ == t then upd c :: rest
    else c :: replaceFirstCondition t upd rest

/-- Modelled from the spec: `meta.SetStatusCondition` from
k8s.io/apimachinery upserts the condition record of `newCondition`'s type:
if a record of that type exists it is updated in place
(`lastTransitionTime` refreshed only if `status` changed); otherwise a new
record is appended, stamped with the ambient time (the source always
passes a condition whose `LastTransitionTime` is the zero time). -/
def SetStatusCondition (conditions : List Condition) (newCondition : Condition)
    (now : Time) : List Condition :=
  match FindStatusCondition conditions newCondition.Type_ with
  | none => conditions ++ [{ newCondition with LastTransitionTime := now }]
  | some _ =>
    replaceFirstCondition newCondition.Type_
      (fun c => updateExistingCondition c newCondition now) conditions

/-- Embeds Go `(a *ApplicationSnapshot) HasStarted()`:
`a.Status.StartTime != nil && !a.Status.StartTime.IsZero()`. -/
def HasStarted (a : ApplicationSnapshot) : Bool :=
  match a.Status.StartTime with
  | some t => !(t == 0)
  | none => false

/-- Embeds Go `(a *ApplicationSnapshot) HasSucceeded()`:
`!meta.IsStatusConditionTrue(a.Status.Conditions, applicationSnapshotConditionType)`. -/
def HasSucceeded (a : ApplicationSnapshot) : Bool :=
  !(IsStatusConditionTrue a.Status.Conditions applicationSnapshotConditionType)

/-- Embeds Go `(a *ApplicationSnapshot) IsDone()`: finds the `Succeeded`
condition; if present, done iff its status is not Unknown, else false. -/
def IsDone (a : ApplicationSnapshot) : Bool :=
  match FindStatusCondition a.Status.Conditions applicationSnapshotConditionType with
  | some condition => !(condition.Status == ConditionStatus.conditionUnknown)
  | none => false

/-- Embeds Go `setStatusConditionWithMessage`: upserts the `Succeeded`
condition with the given status, reason and message (the condition passed
to `meta.SetStatusCondition` carries a zero `LastTransitionTime`, so the
upsert stamps `now` where it refreshes the transition time). -/
def setStatusConditionWithMessage (a : ApplicationSnapshot)
    (status : ConditionStatus) (reason : ApplicationSnapshotReason)
    (message : String) (now : Time) : ApplicationSnapshot :=
  { a with Status := { a.Status with
      Conditions := SetStatusCondition a.Status.Conditions
        { Type_ := applicationSnapshotConditionType
          Status := status
          Reason := reasonString reason
          Message := message
          LastTransitionTime := 0 } now } }

/-- Embeds Go `setStatusCondition`: `setStatusConditionWithMessage` with an
empty message. -/
def setStatusCondition (a : ApplicationSnapshot) (status : ConditionStatus)
    (reason : ApplicationSnapshotReason) (now : Time) : ApplicationSnapshot :=
  setStatusConditionWithMessage a status reason "" now

/-- Embeds Go `MarkFailed`: no-op if `IsDone()` and `CompletionTime != nil`;
otherwise stamps `CompletionTime` with the current time and sets the
condition to (False, reason, message). -/
def MarkFailed (a : ApplicationSnapshot) (reason : ApplicationSnapshotReason)
    (message : String) (now : Time) : ApplicationSnapshot :=
  if IsDone a && a.Status.CompletionTime.isSome then a
  else
    let a' := { a with Status := { a.Status with CompletionTime := some now } }
    setStatusConditionWithMessage a' ConditionStatus.conditionFalse reason message now

/-- Embeds Go `MarkInvalid`: no-op if `IsDone()`; otherwise sets the
condition to (False, reason, message) without touching `CompletionTime`. -/
def MarkInvalid (a : ApplicationSnapshot) (reason : ApplicationSnapshotReason)
    (message : String) (now : Time) : ApplicationSnapshot :=
  if IsDone a then a
  else setStatusConditionWithMessage a ConditionStatus.conditionFalse reason message now

/-- Embeds Go `MarkRunning`: no-op if `HasStarted()` and `StartTime != nil`;
otherwise stamps `StartTime` with the current time and sets the condition
to (Unknown, TestsRunning). -/
def MarkRunning (a : ApplicationSnapshot) (now : Time) : ApplicationSnapshot :=
  if HasStarted a && a.Status.StartTime.isSome then a
  else
    let a' := { a with Status := { a.Status with StartTime := some now } }
    setStatusCondition a' ConditionStatus.conditionUnknown
      ApplicationSnapshotReasonTestsRunning now

/-- Embeds Go `MarkSucceeded`: no-op if `IsDone()` and
`CompletionTime != nil`; otherwise stamps `CompletionTime` with the current
time and sets the condition to (True, Succeeded). -/
def MarkSucceeded (a : ApplicationSnapshot) (now : Time) : ApplicationSnapshot :=
  if IsDone a && a.Status.CompletionTime.isSome then a
  else
    let a' := { a with Status := { a.Status with CompletionTime := some now } }
    setStatusCondition a' ConditionStatus.conditionTrue
      ApplicationSnapshotReasonSucceeded now

/-- One call of a Mark operation, with the wall-clock time it reads. -/
inductive MarkOp where
  | running : Time → MarkOp
  | failed : ApplicationSnapshotReason → String → Time → MarkOp
  | invalid : ApplicationSnapshotReason → String → Time → MarkOp
  | succeeded : Time → MarkOp
deriving DecidableEq, Repr

/-- Applies one Mark operation to a snapshot. -/
def applyMarkOp (a : ApplicationSnapshot) : MarkOp → ApplicationSnapshot
  | MarkOp.running now => MarkRunning a now
  | MarkOp.failed reason message now => MarkFailed a reason message now
  | MarkOp.invalid reason message now => MarkInvalid a reason message now
  | MarkOp.succeeded now => MarkSucceeded a now

/-- Applies a sequence of Mark operations from left to right. -/
def applyMarkOps (a : ApplicationSnapshot) (ops : List MarkOp) : ApplicationSnapshot :=
  ops.foldl applyMarkOp a

/-- The status of the `Succeeded` condition the code would find, if any. -/
def succeededStatus (a : ApplicationSnapshot) : Option ConditionStatus :=
  (FindStatusCondition a.Status.Conditions applicationSnapshotConditionType).map
    (fun c => c.Status)

/-- The `lastTransitionTime` of the `Succeeded` condition the code would
find, if any. -/
def succeededLastTransitionTime (a : ApplicationSnapshot) : Option Time :=
  (FindStatusCondition a.Status.Conditions applicationSnapshotConditionType).map
    (fun c => c.LastTransitionTime)

/-- At most one condition record per `type` value. -/
def UniquePerType (conditions : List Condition) : Prop :=
  conditions.Pairwise (fun c d => c.Type_ ≠ d.Type_)

instance (conditions : List Condition) : Decidable (UniquePerType conditions) := by
  unfold UniquePerType
  infer_instance

/-- A sample spec used by concrete witnesses and counterexamples. -/
def sampleSpec : ApplicationSnapshotSpec :=
  { Application := "app"
    DisplayName := ""
    DisplayDescription := ""
    Type_ := ""
    Components := []
    Artifacts := "" }

/-- A fresh snapshot: no conditions, no start or completion time. -/
def freshSnapshot : ApplicationSnapshot :=
  { Spec := sampleSpec
    Status :=
      { StartTime := none
        CompletionTime := none
        Conditions := []
        ReleasePipelineRun := "" } }

/-! ### Helper lemmas about the condition upsert -/

theorem findStatusCondition_nil (t : String) : FindStatusCondition [] t = none := rfl

theorem findStatusCondition_cons (c : Condition) (rest : List Condition) (t : String) :
    FindStatusCondition (c :: rest) t =
      if c.Type_ = t then some c else FindStatusCondition rest t := by
  by_cases h : c.Type_ = t
  · simp [FindStatusCondition, List.find?_cons, h]
  · simp [FindStatusCondition, List.find?_cons, h]

theorem mem_of_findStatusCondition {conds : List Condition} {t : String} {c : Condition}
    (h : FindStatusCondition conds t = some c) : c ∈ conds ∧ c.Type_ = t := by
  refine ⟨List.mem_of_find?_eq_some h, ?_⟩
  have := List.find?_some h
  simpa using this

theorem findStatusCondition_of_uniquePerType {conds : List Condition} {t : String}
    (h : UniquePerType conds) {c : Condition} (hc : c ∈ conds) (ht : c.Type_ = t) :
    FindStatusCondition conds t = some c := by
  induction conds with
  | nil => cases hc
  | cons c0 rest ih =>
    unfold UniquePerType at h
    rw [List.pairwise_cons] at h
    rw [findStatusCondition_cons]
    rcases List.mem_cons.mp hc with rfl | hmem
    · simp [ht]
    · have hne : c0.Type_ ≠ t := by
        intro h0
        exact h.1 c hmem (h0.trans ht.symm)
      simp only [hne, if_false]
      exact ih h.2 hmem

theorem updateExistingCondition_Type (c newCondition : Condition) (now : Time) :
    (updateExistingCondition c newCondition now).Type_ = c.Type_ := by
  unfold updateExistingCondition
  split <;> rfl

theorem findStatusCondition_replaceFirst {t : String} {upd : Condition → Condition}
    (hupd : ∀ c, (upd c).Type_ = c.Type_) :
    ∀ {conds : List Condition} {c : Condition},
      FindStatusCondition conds t = some c →
      FindStatusCondition (replaceFirstCondition t upd conds) t = some (upd c) := by
  intro conds
  induction conds with
  | nil => intro c h; simp [findStatusCondition_nil] at h
  | cons c0 rest ih =>
    intro c h
    rw [findStatusCondition_cons] at h
    by_cases h0 : c0.Type_ = t
    · simp only [h0, if_true, Option.some.injEq] at h
      subst h
      simp only [replaceFirstCondition, h0, beq_self_eq_true, if_true]
      rw [findStatusCondition_cons]
      simp [hupd c0, h0]
    · simp only [h0, if_false] at h
      have hbeq : (c0.Type_ == t) = false := by simp [h0]
      simp only [replaceFirstCondition, hbeq, Bool.false_eq_true, if_false]
      rw [findStatusCondition_cons]
      simp only [h0, if_false]
      exact ih h

theorem findStatusCondition_append_none {conds : List Condition} {t : String}
    (h : FindStatusCondition conds t = none) {x : Condition} (hx : x.Type_ = t) :
    FindStatusCondition (conds ++ [x]) t = some x := by
  induction conds with
  | nil => simp [findStatusCondition_cons, hx]
  | cons c0 rest ih =>
    rw [findStatusCondition_cons] at h
    by_cases h0 : c0.Type_ = t
    · simp [h0] at h
    · simp only [h0, if_false] at h
      rw [List.cons_append, findStatusCondition_cons]
      simp only [h0, if_false]
      exact ih h

/-- Full characterization of the condition found after an upsert: the fresh
record stamped with `now` when no record of the type existed, the in-place
update of the previously found record otherwise. -/
theorem findStatusCondition_setStatusCondition (conds : List Condition)
    (newCondition : Condition) (now : Time) :
    FindStatusCondition (SetStatusCondition conds newCondition now) newCondition.Type_ =
      some ((FindStatusCondition conds newCondition.Type_).elim
        { newCondition with LastTransitionTime := now }
        (fun c => updateExistingCondition c newCondition now)) := by
  cases h : FindStatusCondition conds newCondition.Type_ with
  | none =>
    simp only [SetStatusCondition, h, Option.elim]
    exact findStatusCondition_append_none h rfl
  | some c =>
    simp only [SetStatusCondition, h, Option.elim]
    exact findStatusCondition_replaceFirst
      (fun c' => updateExistingCondition_Type c' newCondition now) h

theorem replaceFirstCondition_map_Type {t : String} {upd : Condition → Condition}
    (hupd : ∀ c, (upd c).Type_ = c.Type_) (conds : List Condition) :
    (replaceFirstCondition t upd conds).map (fun c => c.Type_) =
      conds.map (fun c => c.Type_) := by
  induction conds with
  | nil => rfl
  | cons c0 rest ih =>
    by_cases h0 : c0.Type_ = t
    · simp [replaceFirstCondition, h0, hupd c0]
    · have hbeq : (c0.Type_ == t) = false := by simp [h0]
      simp [replaceFirstCondition, hbeq, ih]

theorem uniquePerType_iff_map (conds : List Condition) :
    UniquePerType conds ↔
      (conds.map (fun c => c.Type_)).Pairwise (fun s r => s ≠ r) := by
  rw [List.pairwise_map]
  rfl

theorem setStatusCondition_uniquePerType {conds : List Condition}
    (newCondition : Condition) (now : Time) (h : UniquePerType conds) :
    UniquePerType (SetStatusCondition conds newCondition now) := by
  cases hf : FindStatusCondition conds newCondition.Type_ with
  | none =>
    simp only [SetStatusCondition, hf]
    unfold UniquePerType at h ⊢
    rw [List.pairwise_append]
    refine ⟨h, List.pairwise_singleton _ _, ?_⟩
    intro c hc x hx
    have hall := List.find?_eq_none.mp hf c hc
    simp only [List.mem_singleton] at hx
    subst hx
    intro heq
    exact hall (by simpa using heq)
  | some c =>
    simp only [SetStatusCondition, hf]
    rw [uniquePerType_iff_map] at h ⊢
    rw [replaceFirstCondition_map_Type
      (fun c' => updateExistingCondition_Type c' newCondition now)]
    exact h

/-! ### Frame lemmas and terminal no-op lemmas -/

theorem setStatusConditionWithMessage_StartTime (a : ApplicationSnapshot)
    (status : ConditionStatus) (reason : ApplicationSnapshotReason)
    (message : String) (now : Time) :
    (setStatusConditionWithMessage a status reason message now).Status.StartTime =
      a.Status.StartTime := rfl

theorem setStatusConditionWithMessage_CompletionTime (a : ApplicationSnapshot)
    (status : ConditionStatus) (reason : ApplicationSnapshotReason)
    (message : String) (now : Time) :
    (setStatusConditionWithMessage a status reason message now).Status.CompletionTime =
      a.Status.CompletionTime := rfl

theorem markFailed_noop {a : ApplicationSnapshot} (h1 : IsDone a = true)
    (h2 : a.Status.CompletionTime.isSome = true)
    (reason : ApplicationSnapshotReason) (message : String) (now : Time) :
    MarkFailed a reason message now = a := by
  unfold MarkFailed
  simp [h1, h2]

theorem markSucceeded_noop {a : ApplicationSnapshot} (h1 : IsDone a = true)
    (h2 : a.Status.CompletionTime.isSome = true) (now : Time) :
    MarkSucceeded a now = a := by
  unfold MarkSucceeded
  simp [h1, h2]

theorem markInvalid_noop {a : ApplicationSnapshot} (h1 : IsDone a = true)
    (reason : ApplicationSnapshotReason) (message : String) (now : Time) :
    MarkInvalid a reason message now = a := by
  unfold MarkInvalid
  simp [h1]

theorem hasStarted_isSome {a : ApplicationSnapshot} (h : HasStarted a = true) :
    a.Status.StartTime.isSome = true := by
  unfold HasStarted at h
  cases hs : a.Status.StartTime with
  | none => rw [hs] at h; cases h
  | some t => simp

theorem markRunning_noop {a : ApplicationSnapshot} (h : HasStarted a = true)
    (now : Time) : MarkRunning a now = a := by
  unfold MarkRunning
  simp [h, hasStarted_isSome h]

theorem applyMarkOp_terminal_started {a : ApplicationSnapshot}
    (h1 : IsDone a = true) (h2 : a.Status.CompletionTime.isSome = true)
    (h3 : HasStarted a = true) (op : MarkOp) : applyMarkOp a op = a := by
  cases op with
  | running now => exact markRunning_noop h3 now
  | failed reason message now => exact markFailed_noop h1 h2 reason message now
  | invalid reason message now => exact markInvalid_noop h1 reason message now
  | succeeded now => exact markSucceeded_noop h1 h2 now

theorem applyMarkOps_terminal_started {a : ApplicationSnapshot}
    (h1 : IsDone a = true) (h2 : a.Status.CompletionTime.isSome = true)
    (h3 : HasStarted a = true) (ops : List MarkOp) : applyMarkOps a ops = a := by
  induction ops with
  | nil => rfl
  | cons op rest ih =>
    unfold applyMarkOps
    rw [List.foldl_cons, applyMarkOp_terminal_started h1 h2 h3 op]
    exact ih

/-- A terminal snapshot (Succeeded condition False, completion time set)
that never went through `MarkRunning`, so its start time is nil. -/
def terminalNotStarted : ApplicationSnapshot :=
  { Spec := sampleSpec
    Status :=
      { StartTime := none
        CompletionTime := some 5
        Conditions :=
          [{ Type_ := "Succeeded"
             Status := ConditionStatus.conditionFalse
             Reason := "Error"
             Message := "x"
             LastTransitionTime := 5 }]
        ReleasePipelineRun := "" } }

theorem setStatusCondition_StartTime (a : ApplicationSnapshot)
    (status : ConditionStatus) (reason : ApplicationSnapshotReason) (now : Time) :
    (setStatusCondition a status reason now).Status.StartTime =
      a.Status.StartTime := rfl

theorem isStatusConditionTrue_iff {conds : List Condition} {t : String}
    (h : UniquePerType conds) :
    IsStatusConditionTrue conds t = true ↔
      ∃ c ∈ conds, c.Type_ = t ∧ c.Status = ConditionStatus.conditionTrue := by
  constructor
  · intro ht
    unfold IsStatusConditionTrue at ht
    cases hf : FindStatusCondition conds t with
    | none => rw [hf] at ht; cases ht
    | some c =>
      rw [hf] at ht
      obtain ⟨hmem, htype⟩ := mem_of_findStatusCondition hf
      exact ⟨c, hmem, htype, by simpa using ht⟩
  · rintro ⟨c, hmem, htype, hstatus⟩
    unfold IsStatusConditionTrue
    rw [findStatusCondition_of_uniquePerType h hmem htype]
    simp [hstatus]

/-- A terminal snapshot (Succeeded condition with a definitive status,
completion time set) that has also started. -/
def terminalStarted : ApplicationSnapshot :=
  { Spec := sampleSpec
    Status :=
      { StartTime := some 3
        CompletionTime := some 5
        Conditions :=
          [{ Type_ := "Succeeded"
             Status := ConditionStatus.conditionTrue
             Reason := "Succeeded"
             Message := ""
             LastTransitionTime := 5 }]
        ReleasePipelineRun := "" } }

/-- `findStatusCondition_setStatusCondition` specialized to the condition
the source always builds (type `Succeeded`, zero transition time). -/
theorem findStatusCondition_after_set (conds : List Condition)
    (status : ConditionStatus) (reason message : String) (now : Time) :
    FindStatusCondition
        (SetStatusCondition conds
          ⟨applicationSnapshotConditionType, status, reason, message, 0⟩ now)
        applicationSnapshotConditionType =
      some ((FindStatusCondition conds applicationSnapshotConditionType).elim
        ⟨applicationSnapshotConditionType, status, reason, message, now⟩
        (fun c => updateExistingCondition c
          ⟨applicationSnapshotConditionType, status, reason, message, 0⟩ now)) :=
  findStatusCondition_setStatusCondition conds _ now

/-- The `Succeeded` condition found after `setStatusConditionWithMessage`. -/
theorem succeededCondition_setStatusConditionWithMessage (a : ApplicationSnapshot)
    (status : ConditionStatus) (reason : ApplicationSnapshotReason)
    (message : String) (now : Time) :
    FindStatusCondition
        (setStatusConditionWithMessage a status reason message now).Status.Conditions
        applicationSnapshotConditionType =
      some ((FindStatusCondition a.Status.Conditions applicationSnapshotConditionType).elim
        ⟨applicationSnapshotConditionType, status, reason, message, now⟩
        (fun c => updateExistingCondition c
          ⟨applicationSnapshotConditionType, status, reason, message, 0⟩ now)) :=
  findStatusCondition_after_set a.Status.Conditions status reason message now

/-- After an upsert with a given status, reason and message, the found
`Succeeded` condition carries exactly those three fields. -/
theorem succeededCondition_fields_setSCWM (a : ApplicationSnapshot)
    (status : ConditionStatus) (reason : ApplicationSnapshotReason)
    (message : String) (now : Time) :
    ∃ c, FindStatusCondition
        (setStatusConditionWithMessage a status reason message now).Status.Conditions
        applicationSnapshotConditionType = some c ∧
      c.Status = status ∧ c.Reason = reason ∧ c.Message = message := by
  rw [succeededCondition_setStatusConditionWithMessage]
  refine ⟨_, rfl, ?_⟩
  cases FindStatusCondition a.Status.Conditions applicationSnapshotConditionType with
  | none => exact ⟨rfl, rfl, rfl⟩
  | some c =>
    by_cases hcs : c.Status = status
    · simp [Option.elim, updateExistingCondition, hcs]
    · simp [Option.elim, updateExistingCondition, hcs]

theorem succeededStatus_setSCWM (a : ApplicationSnapshot)
    (status : ConditionStatus) (reason : ApplicationSnapshotReason)
    (message : String) (now : Time) :
    succeededStatus (setStatusConditionWithMessage a status reason message now) =
      some status := by
  obtain ⟨c, hfind, hstatus, _, _⟩ :=
    succeededCondition_fields_setSCWM a status reason message now
  unfold succeededStatus
  rw [hfind]
  simp [hstatus]

theorem isDone_of_succeededStatus {a : ApplicationSnapshot} {s : ConditionStatus}
    (h : succeededStatus a = some s) (hs : s ≠ ConditionStatus.conditionUnknown) :
    IsDone a = true := by
  unfold succeededStatus at h
  unfold IsDone
  cases hf : FindStatusCondition a.Status.Conditions applicationSnapshotConditionType with
  | none => rw [hf] at h; cases h
  | some c =>
    rw [hf] at h
    have hcs : c.Status = s := by simpa using h
    simp [hcs, hs]

/-! ### Claim theorems -/

/-- C1: for every ApplicationSnapshot (whose conditions satisfy the
documented at-most-one-record-per-type invariant), `HasSucceeded` returns
true iff the conditions do not contain a condition of type `Succeeded`
with status True. -/
theorem hasSucceeded_iff_no_true_condition (a : ApplicationSnapshot)
    (h : UniquePerType a.Status.Conditions) :
    HasSucceeded a = true ↔
      ¬ ∃ c ∈ a.Status.Conditions,
          c.Type_ = applicationSnapshotConditionType ∧
          c.Status = ConditionStatus.conditionTrue := by
  unfold HasSucceeded
  rw [Bool.not_eq_true']
  rw [← Bool.not_eq_true]
  exact not_congr (isStatusConditionTrue_iff h)

/-- C1 witness: the theorem applied to a concrete snapshot. -/
theorem hasSucceeded_iff_no_true_condition_witness :
    UniquePerType freshSnapshot.Status.Conditions ∧
      (HasSucceeded freshSnapshot = true ↔
        ¬ ∃ c ∈ freshSnapshot.Status.Conditions,
            c.Type_ = applicationSnapshotConditionType ∧
            c.Status = ConditionStatus.conditionTrue) :=
  ⟨by decide, hasSucceeded_iff_no_true_condition freshSnapshot (by decide)⟩

/-- C3: for every ApplicationSnapshot (whose conditions satisfy the
documented at-most-one-record-per-type invariant), `IsDone` returns true
iff a condition of type `Succeeded` exists and its status is not Unknown;
in particular it is false when no such condition exists. -/
theorem isDone_iff_succeeded_condition_not_unknown (a : ApplicationSnapshot)
    (h : UniquePerType a.Status.Conditions) :
    IsDone a = true ↔
      ∃ c ∈ a.Status.Conditions,
        c.Type_ = applicationSnapshotConditionType ∧
        c.Status ≠ ConditionStatus.conditionUnknown := by
  constructor
  · intro ht
    unfold IsDone at ht
    cases hf : FindStatusCondition a.Status.Conditions applicationSnapshotConditionType with
    | none => rw [hf] at ht; cases ht
    | some c =>
      rw [hf] at ht
      obtain ⟨hmem, htype⟩ := mem_of_findStatusCondition hf
      exact ⟨c, hmem, htype, by simpa using ht⟩
  · rintro ⟨c, hmem, htype, hstatus⟩
    unfold IsDone
    rw [findStatusCondition_of_uniquePerType h hmem htype]
    simp [hstatus]

/-- C3 witness: the theorem applied to a concrete snapshot. -/
theorem isDone_iff_succeeded_condition_not_unknown_witness :
    UniquePerType terminalNotStarted.Status.Conditions ∧
      (IsDone terminalNotStarted = true ↔
        ∃ c ∈ terminalNotStarted.Status.Conditions,
          c.Type_ = applicationSnapshotConditionType ∧
          c.Status ≠ ConditionStatus.conditionUnknown) :=
  ⟨by decide, isDone_iff_succeeded_condition_not_unknown terminalNotStarted (by decide)⟩

/-- C4: calling `MarkRunning` twice leaves `startTime` at its value after
the first call; the hypothesis `now1 ≠ 0` records that the Go wall clock
`time.Now()` never returns the zero time. -/
theorem markRunning_markRunning_startTime (a : ApplicationSnapshot)
    (now1 now2 : Time) (h : now1 ≠ 0) :
    (MarkRunning (MarkRunning a now1) now2).Status.StartTime =
      (MarkRunning a now1).Status.StartTime := by
  by_cases hg : HasStarted a = true
  · rw [markRunning_noop hg now1, markRunning_noop hg now2]
  · rw [Bool.not_eq_true] at hg
    have hstart : (MarkRunning a now1).Status.StartTime = some now1 := by
      unfold MarkRunning
      simp only [hg, Bool.false_and, Bool.false_eq_true, if_false]
      rfl
    have hgb : HasStarted (MarkRunning a now1) = true := by
      unfold HasStarted
      rw [hstart]
      simp [h]
    rw [markRunning_noop hgb now2]

/-- C4 witness: the theorem applied to a concrete snapshot and times. -/
theorem markRunning_markRunning_startTime_witness :
    (3 : Time) ≠ 0 ∧
      (MarkRunning (MarkRunning freshSnapshot 3) 5).Status.StartTime =
        (MarkRunning freshSnapshot 3).Status.StartTime :=
  ⟨by decide, markRunning_markRunning_startTime freshSnapshot 3 5 (by decide)⟩

/-- C2 counterexample: `terminalNotStarted` is in a terminal state
(Succeeded condition status False, completionTime set), yet the operation
sequence `[MarkRunning]` changes the Succeeded condition status to
Unknown — the MarkRunning guard checks only `startTime`, so a snapshot
that was marked failed without ever being marked running escapes its
terminal state. -/
theorem markRunning_escapes_terminal_cex :
    IsDone terminalNotStarted = true ∧
    terminalNotStarted.Status.CompletionTime ≠ none ∧
    succeededStatus terminalNotStarted = some ConditionStatus.conditionFalse ∧
    succeededStatus (applyMarkOps terminalNotStarted [MarkOp.running 7]) =
      some ConditionStatus.conditionUnknown := by
  refine ⟨rfl, by simp [terminalNotStarted], rfl, rfl⟩

/-- C2 (amended): for every ApplicationSnapshot in a terminal state
(`IsDone`, i.e. Succeeded condition status True or False) with
completionTime set that has moreover started (startTime set and non-zero),
no sequence of MarkRunning, MarkFailed, MarkInvalid, MarkSucceeded changes
the snapshot at all — in particular the Succeeded condition status keeps
its terminal value. -/
theorem terminal_started_sticky (a : ApplicationSnapshot) (ops : List MarkOp)
    (h1 : IsDone a = true) (h2 : a.Status.CompletionTime ≠ none)
    (h3 : HasStarted a = true) :
    applyMarkOps a ops = a ∧ succeededStatus (applyMarkOps a ops) = succeededStatus a := by
  have h2' : a.Status.CompletionTime.isSome = true := by
    cases hc : a.Status.CompletionTime with
    | none => exact absurd hc h2
    | some t => rfl
  have hfix := applyMarkOps_terminal_started h1 h2' h3 ops
  exact ⟨hfix, by rw [hfix]⟩

/-- C2 witness: the amended theorem applied to a concrete terminal,
started snapshot and a concrete operation sequence. -/
theorem terminal_started_sticky_witness :
    IsDone terminalStarted = true ∧
    terminalStarted.Status.CompletionTime ≠ none ∧
    HasStarted terminalStarted = true ∧
    (applyMarkOps terminalStarted
        [MarkOp.running 7, MarkOp.failed "Error" "x" 8,
         MarkOp.invalid "Error" "y" 9, MarkOp.succeeded 10] = terminalStarted ∧
      succeededStatus (applyMarkOps terminalStarted
        [MarkOp.running 7, MarkOp.failed "Error" "x" 8,
         MarkOp.invalid "Error" "y" 9, MarkOp.succeeded 10]) =
        succeededStatus terminalStarted) :=
  ⟨by decide, by decide, by decide,
    terminal_started_sticky terminalStarted
      [MarkOp.running 7, MarkOp.failed "Error" "x" 8,
       MarkOp.invalid "Error" "y" 9, MarkOp.succeeded 10]
      (by decide) (by decide) (by decide)⟩

/-- C5: after `MarkSucceeded`, `IsDone` is true and a subsequent
`MarkFailed` with any reason and message is a no-op: the whole snapshot —
in particular the Succeeded condition and `completionTime` — is unchanged. -/
theorem markSucceeded_isDone_markFailed_noop (a : ApplicationSnapshot)
    (reason : ApplicationSnapshotReason) (message : String) (now1 now2 : Time) :
    IsDone (MarkSucceeded a now1) = true ∧
    MarkFailed (MarkSucceeded a now1) reason message now2 = MarkSucceeded a now1 := by
  by_cases hg : (IsDone a && a.Status.CompletionTime.isSome) = true
  · have hnoop : MarkSucceeded a now1 = a := by
      unfold MarkSucceeded
      simp [hg]
    obtain ⟨h1, h2⟩ : IsDone a = true ∧ a.Status.CompletionTime.isSome = true := by
      simpa using hg
    rw [hnoop]
    exact ⟨h1, markFailed_noop h1 h2 reason message now2⟩
  · rw [Bool.not_eq_true] at hg
    have hb : MarkSucceeded a now1 =
        setStatusConditionWithMessage
          { a with Status := { a.Status with CompletionTime := some now1 } }
          ConditionStatus.conditionTrue ApplicationSnapshotReasonSucceeded "" now1 := by
      unfold MarkSucceeded setStatusCondition
      simp [hg]
    have hdone : IsDone (MarkSucceeded a now1) = true := by
      rw [hb]
      exact isDone_of_succeededStatus (succeededStatus_setSCWM _ _ _ _ _) (by decide)
    have hct : (MarkSucceeded a now1).Status.CompletionTime.isSome = true := by
      rw [hb]
      rfl
    exact ⟨hdone, markFailed_noop hdone hct reason message now2⟩

/-- C6: on a snapshot not already done with completion time set,
`MarkFailed` sets the Succeeded condition to status False with the given
reason and message, and stamps `completionTime` (so it is non-nil). -/
theorem markFailed_sets_condition_and_completionTime (a : ApplicationSnapshot)
    (reason : ApplicationSnapshotReason) (message : String) (now : Time)
    (h : ¬(IsDone a = true ∧ a.Status.CompletionTime ≠ none)) :
    (∃ c, FindStatusCondition (MarkFailed a reason message now).Status.Conditions
        applicationSnapshotConditionType = some c ∧
      c.Status = ConditionStatus.conditionFalse ∧
      c.Reason = reason ∧ c.Message = message) ∧
    (MarkFailed a reason message now).Status.CompletionTime = some now := by
  have hg : (IsDone a && a.Status.CompletionTime.isSome) = false := by
    cases hd : IsDone a with
    | false => rfl
    | true =>
      cases hc : a.Status.CompletionTime with
      | none => rfl
      | some t => exact absurd ⟨hd, by rw [hc]; simp⟩ h
  have hm : MarkFailed a reason message now =
      setStatusConditionWithMessage
        { a with Status := { a.Status with CompletionTime := some now } }
        ConditionStatus.conditionFalse reason message now := by
    unfold MarkFailed
    simp [hg]
  constructor
  · rw [hm]
    exact succeededCondition_fields_setSCWM _ _ _ _ _
  · rw [hm]
    rfl

/-- C6 witness: the theorem applied to a concrete snapshot. -/
theorem markFailed_sets_condition_and_completionTime_witness :
    ¬(IsDone freshSnapshot = true ∧ freshSnapshot.Status.CompletionTime ≠ none) ∧
    ((∃ c, FindStatusCondition
        (MarkFailed freshSnapshot "Error" "x" 4).Status.Conditions
        applicationSnapshotConditionType = some c ∧
      c.Status = ConditionStatus.conditionFalse ∧
      c.Reason = "Error" ∧ c.Message = "x") ∧
    (MarkFailed freshSnapshot "Error" "x" 4).Status.CompletionTime = some 4) :=
  ⟨by decide,
    markFailed_sets_condition_and_completionTime freshSnapshot "Error" "x" 4 (by decide)⟩

/-- C7: on a fresh snapshot (no conditions, nil start and completion
times), `MarkInvalid` sets the Succeeded condition to (False, reason,
message) while `completionTime` stays nil. -/
theorem markInvalid_fresh_sets_condition_not_completionTime (a : ApplicationSnapshot)
    (reason : ApplicationSnapshotReason) (message : String) (now : Time)
    (h1 : a.Status.Conditions = []) (_h2 : a.Status.StartTime = none)
    (h3 : a.Status.CompletionTime = none) :
    (MarkInvalid a reason message now).Status.Conditions =
      [⟨applicationSnapshotConditionType, ConditionStatus.conditionFalse,
        reason, message, now⟩] ∧
    (MarkInvalid a reason message now).Status.CompletionTime = none := by
  have hd : IsDone a = false := by
    unfold IsDone
    rw [h1]
    rfl
  have hm : MarkInvalid a reason message now =
      setStatusConditionWithMessage a ConditionStatus.conditionFalse reason message now := by
    unfold MarkInvalid
    simp [hd]
  rw [hm]
  constructor
  · show SetStatusCondition a.Status.Conditions _ now = _
    rw [h1]
    rfl
  · exact h3

/-- C7 witness: the theorem applied to a concrete fresh snapshot. -/
theorem markInvalid_fresh_witness :
    freshSnapshot.Status.Conditions = [] ∧
    freshSnapshot.Status.StartTime = none ∧
    freshSnapshot.Status.CompletionTime = none ∧
    ((MarkInvalid freshSnapshot "Error" "x" 4).Status.Conditions =
      [⟨applicationSnapshotConditionType, ConditionStatus.conditionFalse,
        "Error", "x", 4⟩] ∧
    (MarkInvalid freshSnapshot "Error" "x" 4).Status.CompletionTime = none) :=
  ⟨rfl, rfl, rfl,
    markInvalid_fresh_sets_condition_not_completionTime freshSnapshot
      "Error" "x" 4 rfl rfl rfl⟩

/-- C8: upserting the Succeeded condition twice, the second upsert keeps
`lastTransitionTime` when the status is unchanged, and restamps it with
the (second) current time when the status differs. -/
theorem set_twice_lastTransitionTime (a : ApplicationSnapshot)
    (s1 s2 : ConditionStatus) (r1 r2 : ApplicationSnapshotReason)
    (m1 m2 : String) (now1 now2 : Time) :
    (s2 = s1 →
      succeededLastTransitionTime
          (setStatusConditionWithMessage
            (setStatusConditionWithMessage a s1 r1 m1 now1) s2 r2 m2 now2) =
        succeededLastTransitionTime (setStatusConditionWithMessage a s1 r1 m1 now1)) ∧
    (s2 ≠ s1 →
      succeededLastTransitionTime
          (setStatusConditionWithMessage
            (setStatusConditionWithMessage a s1 r1 m1 now1) s2 r2 m2 now2) =
        some now2) := by
  obtain ⟨c1, hfind, hstat, hrsn, hmsg⟩ :=
    succeededCondition_fields_setSCWM a s1 r1 m1 now1
  have hkey := succeededCondition_setStatusConditionWithMessage
    (setStatusConditionWithMessage a s1 r1 m1 now1) s2 r2 m2 now2
  rw [hfind] at hkey
  simp only [Option.elim] at hkey
  constructor
  · intro hs
    unfold succeededLastTransitionTime
    rw [hkey, hfind]
    simp [updateExistingCondition, hstat, hs]
  · intro hs
    unfold succeededLastTransitionTime
    rw [hkey]
    simp [updateExistingCondition, hstat, Ne.symm hs]

/-- C8 witness: the theorem applied at concrete inputs, once with an
unchanged status and once with a changed one. -/
theorem set_twice_lastTransitionTime_witness :
    succeededLastTransitionTime
        (setStatusConditionWithMessage
          (setStatusConditionWithMessage freshSnapshot
            ConditionStatus.conditionFalse "r1" "m1" 3)
          ConditionStatus.conditionFalse "r2" "m2" 4) =
      succeededLastTransitionTime
        (setStatusConditionWithMessage freshSnapshot
          ConditionStatus.conditionFalse "r1" "m1" 3) ∧
    succeededLastTransitionTime
        (setStatusConditionWithMessage
          (setStatusConditionWithMessage freshSnapshot
            ConditionStatus.conditionFalse "r1" "m1" 3)
          ConditionStatus.conditionTrue "r2" "m2" 4) =
      some 4 :=
  ⟨(set_twice_lastTransitionTime freshSnapshot
      ConditionStatus.conditionFalse ConditionStatus.conditionFalse
      "r1" "r2" "m1" "m2" 3 4).1 rfl,
   (set_twice_lastTransitionTime freshSnapshot
      ConditionStatus.conditionFalse ConditionStatus.conditionTrue
      "r1" "r2" "m1" "m2" 3 4).2 (by decide)⟩

/-- C9: every Mark operation preserves the at-most-one-condition-per-type
invariant (the upsert replaces the existing `Succeeded` record in place
rather than appending a duplicate). -/
theorem markOps_preserve_uniquePerType (op : MarkOp) (a : ApplicationSnapshot)
    (h : UniquePerType a.Status.Conditions) :
    UniquePerType (applyMarkOp a op).Status.Conditions := by
  cases op with
  | running now =>
    show UniquePerType (MarkRunning a now).Status.Conditions
    unfold MarkRunning
    split
    · exact h
    · exact setStatusCondition_uniquePerType _ now h
  | failed reason message now =>
    show UniquePerType (MarkFailed a reason message now).Status.Conditions
    unfold MarkFailed
    split
    · exact h
    · exact setStatusCondition_uniquePerType _ now h
  | invalid reason message now =>
    show UniquePerType (MarkInvalid a reason message now).Status.Conditions
    unfold MarkInvalid
    split
    · exact h
    · exact setStatusCondition_uniquePerType _ now h
  | succeeded now =>
    show UniquePerType (MarkSucceeded a now).Status.Conditions
    unfold MarkSucceeded
    split
    · exact h
    · exact setStatusCondition_uniquePerType _ now h

/-- C9 witness: the theorem applied to a concrete operation and snapshot. -/
theorem markOps_preserve_uniquePerType_witness :
    UniquePerType freshSnapshot.Status.Conditions ∧
      UniquePerType (applyMarkOp freshSnapshot (MarkOp.running 3)).Status.Conditions :=
  ⟨by decide, markOps_preserve_uniquePerType (MarkOp.running 3) freshSnapshot (by decide)⟩

/-- C10: on a fresh snapshot, after `MarkInvalid` the snapshot is done but
`completionTime` is still nil, so a subsequent `MarkFailed` is not a
no-op: it stamps `completionTime` and overwrites the condition's reason
and message (the status stays False, so `lastTransitionTime` keeps the
first call's time). -/
theorem markInvalid_then_markFailed_not_noop (a : ApplicationSnapshot)
    (r1 r2 : ApplicationSnapshotReason) (m1 m2 : String) (now1 now2 : Time)
    (h1 : a.Status.Conditions = []) (_h2 : a.Status.StartTime = none)
    (h3 : a.Status.CompletionTime = none) :
    IsDone (MarkInvalid a r1 m1 now1) = true ∧
    (MarkInvalid a r1 m1 now1).Status.CompletionTime = none ∧
    (MarkFailed (MarkInvalid a r1 m1 now1) r2 m2 now2).Status.CompletionTime =
      some now2 ∧
    FindStatusCondition
        (MarkFailed (MarkInvalid a r1 m1 now1) r2 m2 now2).Status.Conditions
        applicationSnapshotConditionType =
      some ⟨applicationSnapshotConditionType, ConditionStatus.conditionFalse,
        r2, m2, now1⟩ := by
  have hd : IsDone a = false := by
    unfold IsDone
    rw [h1]
    rfl
  have hm : MarkInvalid a r1 m1 now1 =
      setStatusConditionWithMessage a ConditionStatus.conditionFalse r1 m1 now1 := by
    unfold MarkInvalid
    simp [hd]
  have hconds : (MarkInvalid a r1 m1 now1).Status.Conditions =
      [⟨applicationSnapshotConditionType, ConditionStatus.conditionFalse,
        r1, m1, now1⟩] := by
    rw [hm]
    show SetStatusCondition a.Status.Conditions _ now1 = _
    rw [h1]
    rfl
  have hct : (MarkInvalid a r1 m1 now1).Status.CompletionTime = none := by
    rw [hm]
    exact h3
  have hdone : IsDone (MarkInvalid a r1 m1 now1) = true := by
    unfold IsDone
    rw [hconds, findStatusCondition_cons]
    simp [applicationSnapshotConditionType]
  have hg : (IsDone (MarkInvalid a r1 m1 now1) &&
      (MarkInvalid a r1 m1 now1).Status.CompletionTime.isSome) = false := by
    rw [hdone, hct]
    rfl
  have hm2 : MarkFailed (MarkInvalid a r1 m1 now1) r2 m2 now2 =
      setStatusConditionWithMessage
        { MarkInvalid a r1 m1 now1 with Status :=
          { (MarkInvalid a r1 m1 now1).Status with CompletionTime := some now2 } }
        ConditionStatus.conditionFalse r2 m2 now2 := by
    unfold MarkFailed
    simp [hg]
  refine ⟨hdone, hct, ?_, ?_⟩
  · rw [hm2]
    rfl
  · rw [hm2]
    show FindStatusCondition
        (SetStatusCondition (MarkInvalid a r1 m1 now1).Status.Conditions _ now2)
        applicationSnapshotConditionType = _
    rw [hconds]
    rfl

/-- C10 witness: the theorem applied to a concrete fresh snapshot. -/
theorem markInvalid_then_markFailed_not_noop_witness :
    freshSnapshot.Status.Conditions = [] ∧
    freshSnapshot.Status.StartTime = none ∧
    freshSnapshot.Status.CompletionTime = none ∧
    (IsDone (MarkInvalid freshSnapshot "Error" "x" 3) = true ∧
    (MarkInvalid freshSnapshot "Error" "x" 3).Status.CompletionTime = none ∧
    (MarkFailed (MarkInvalid freshSnapshot "Error" "x" 3) "TestsFailed" "y" 4).Status.CompletionTime =
      some 4 ∧
    FindStatusCondition
        (MarkFailed (MarkInvalid freshSnapshot "Error" "x" 3) "TestsFailed" "y" 4).Status.Conditions
        applicationSnapshotConditionType =
      some ⟨applicationSnapshotConditionType, ConditionStatus.conditionFalse,
        "TestsFailed", "y", 3⟩) :=
  ⟨rfl, rfl, rfl,
    markInvalid_then_markFailed_not_noop freshSnapshot
      "Error" "TestsFailed" "x" "y" 3 4 rfl rfl rfl⟩

end AppSnapshot
